import Mathlib

/-! Shallow embedding of the SST repository: the training script
(src/code/train.py) and the Lasagne model (src/lasagne/code/sst/model.py).
We embed label binarization, class-weight computation, minibatching, the
weighted cross-entropy loss expressions built by SSTSequenceEncoder.compile,
the constructor's configuration checks, the epoch structure of the training
loop (including its checkpointing step), and forward_eval. Real-valued
tensor entries are modelled as rationals; the transcendental log is an
explicit function argument; library layers (GRU, dense) whose internals are
outside this repository are abstract function arguments. -/

/-- Python range with start 0 and a positive step: the list 0, step, 2*step,
... of the values below stop (empty when stop is not positive). This is the
semantics of the builtin used at train.py line 76. -/
def pyRange0 (stop step : Int) : List Int :=
  (List.range ((max stop 0 + step - 1) / step).toNat).map (fun (k : Nat) => (k : Int) * step)

/-- Python list slicing l[a:b] for nonnegative bounds, as used for the
unshuffled excerpt at train.py line 80. -/
def listSlice (l : List α) (a b : Nat) : List α :=
  (l.drop a).take (b - a)

/-- Binarization of one ground-truth entry, train.py lines 117-118: the array
is first updated in place by y[y >= tau] = 1 and then, on the updated array,
by y[y < tau] = 0. Both masks are elementwise, so the composite acts
independently on each entry. -/
def binarizeElem (tau v : ℚ) : ℚ :=
  let v1 := if tau ≤ v then 1 else v
  if v1 < tau then 0 else v1

/-- Binarization mapped over a list of raw tIoU values. -/
def binarizeList (tau : ℚ) (l : List ℚ) : List ℚ :=
  l.map (binarizeElem tau)

/-- Number of entries equal to c in the anchor-k column of one sample's
(T × K) label matrix: the axis-1 sum of the elementwise comparison in
train.py lines 121-122, projected to anchor k. -/
def countEq (c : ℚ) (sample : List (List ℚ)) (k : Nat) : Nat :=
  (sample.map (fun row => row.getD k 0)).count c

/-- train.py line 121: w0 = np.mean((y_train == 1).sum(1) / seq_length, axis=0),
projected to anchor k. Note the comparison is against 1: w0 is the mean
fraction of positive labels per sequence. -/
def w0_code (ytrain : List (List (List ℚ))) (seq_length : ℚ) (k : Nat) : ℚ :=
  ((ytrain.map (fun s => (countEq 1 s k : ℚ) / seq_length)).sum) / (ytrain.length : ℚ)

/-- train.py line 122: w1 = np.mean((y_train == 0).sum(1) / seq_length, axis=0),
projected to anchor k. Note the comparison is against 0: w1 is the mean
fraction of negative labels per sequence. -/
def w1_code (ytrain : List (List (List ℚ))) (seq_length : ℚ) (k : Nat) : ℚ :=
  ((ytrain.map (fun s => (countEq 0 s k : ℚ) / seq_length)).sum) / (ytrain.length : ℚ)

/-- iterate_minibatches, train.py lines 71-81. The shuffled index ordering
produced by np.random.shuffle is passed explicitly: indices = some idx models
shuffle=True with the permutation idx, none models shuffle=False. Start
indices come from range(0, len(inputs) - batchsize + 1, batchsize); the
shuffled branch slices the index array and gathers (fancy indexing), the
unshuffled branch slices the data directly. The source also asserts
len(inputs) == len(targets); theorems carry that as a hypothesis. -/
def iterate_minibatches [Inhabited α] [Inhabited β] (indices : Option (List Nat))
    (inputs : List α) (targets : List β) (batchsize : Nat) :
    List (List α × List β) :=
  (pyRange0 ((inputs.length : Int) - (batchsize : Int) + 1) (batchsize : Int)).map
    (fun s =>
      match indices with
      | some idx =>
          let excerpt := listSlice idx s.toNat (s.toNat + batchsize)
          (excerpt.map (fun i => inputs.getD i default),
           excerpt.map (fun i => targets.getD i default))
      | none =>
          (listSlice inputs s.toNat (s.toNat + batchsize),
           listSlice targets s.toNat (s.toNat + batchsize)))

/-- T.clip(x, 0.001, 0.999) applied to the network output in compile
(model.py lines 125 and 135). -/
def tclip (x : ℚ) : ℚ :=
  max (1 / 1000) (min (999 / 1000) x)

/-- Per-element training loss exactly as built at model.py lines 123-127:
term1 = w1 * y, term2 = w0 * (1 - y), and the loss is
-(term1 * log(pred) + (1.0 - term2) * log(1 - pred)). The factor on the
second logarithm is (1 - term2), not term2. log is passed explicitly. -/
def wceElemCode (lg : ℚ → ℚ) (w0 w1 y pred : ℚ) : ℚ :=
  -((w1 * y) * lg pred + (1 - w0 * (1 - y)) * lg (1 - pred))

/-- Mean of the code's per-element loss over the ravelled (target, prediction)
pairs, model.py line 128. -/
def wceMeanCode (lg : ℚ → ℚ) (w0 w1 : ℚ) (pairs : List (ℚ × ℚ)) : ℚ :=
  ((pairs.map (fun p => wceElemCode lg w0 w1 p.1 p.2)).sum) / (pairs.length : ℚ)

/-- The compiled training loss on given targets and raw predictions: the
predictions are clipped (model.py line 125) and the code's loss expression is
averaged over all elements. -/
def trainLossCompiledOn (lg : ℚ → ℚ) (w0 w1 : ℚ) (targets preds : List ℚ) : ℚ :=
  wceMeanCode lg w0 w1 (targets.zip (preds.map tclip))

/-- Per-element loss written from the spec's words (section 4.4):
L = -(w1 * y * log(yhat) + w0 * (1 - y) * log(1 - yhat)). Kept separate from
wceElemCode so the two can be compared. -/
def wceElemSpec (lg : ℚ → ℚ) (w0 w1 y pred : ℚ) : ℚ :=
  -(w1 * y * lg pred + w0 * (1 - y) * lg (1 - pred))

/-- Mean of the spec-worded per-element loss over all elements. -/
def trainLossSpecOn (lg : ℚ → ℚ) (w0 w1 : ℚ) (targets preds : List ℚ) : ℚ :=
  (((targets.zip preds).map (fun p => wceElemSpec lg w0 w1 p.1 p.2)).sum) /
    ((targets.zip preds).length : ℚ)

/-- A concrete computable stand-in for the logarithm, used to evaluate the
loss expressions at concrete points (any function with lg (1/2) different
from 0 separates the code's loss from the spec's). -/
def logStub : ℚ → ℚ := fun x => x - 1

/-- Semantics of lasagne.layers.DropoutLayer (library layer, modelled to
express the deterministic flag): with deterministic = true it is the
identity; at training time each unit is multiplied by its Bernoulli mask
entry rescaled by 1/(1-p). -/
def dropoutLayer (p : ℚ) (deterministic : Bool) (mask h : List ℚ) : List ℚ :=
  if deterministic then h
  else List.zipWith (fun m v => m * v / (1 - p)) mask h

/-- The recurrent stack of _build_network (model.py lines 87-97): depth GRU
layers (the GRU itself is a library layer, passed abstractly), each followed
by a dropout layer when p > 0. -/
def stackLayers (gru : Nat → List ℚ → List ℚ) (p : ℚ) (deterministic : Bool)
    (masks : Nat → List ℚ) : Nat → List ℚ → List ℚ
  | 0, h => h
  | d + 1, h =>
      stackLayers gru p deterministic masks d
        (if 0 < p then dropoutLayer p deterministic (masks d) (gru d h)
         else gru d h)

/-- Output of the network built by _build_network: the recurrent stack
followed by the dense sigmoid head (library dense layer, passed abstractly).
The deterministic flag is the one passed to lasagne.layers.get_output. -/
def buildNetworkOutput (gru : Nat → List ℚ → List ℚ) (dense : List ℚ → List ℚ)
    (depth : Nat) (p : ℚ) (deterministic : Bool) (masks : Nat → List ℚ)
    (x : List ℚ) : List ℚ :=
  dense (stackLayers gru p deterministic masks depth x)

/-- The test loss compiled in train mode, model.py line 140: although
test_prediction is built with deterministic=True at lines 135-136, the
test_loss expression uses train_prediction, i.e. the network output with
deterministic=False (dropout active), clipped and fed to the code's loss. -/
def testLossCompiled (lg : ℚ → ℚ) (gru : Nat → List ℚ → List ℚ)
    (dense : List ℚ → List ℚ) (depth : Nat) (p w0 w1 : ℚ)
    (masks : Nat → List ℚ) (x targets : List ℚ) : ℚ :=
  wceMeanCode lg w0 w1
    (targets.zip ((buildNetworkOutput gru dense depth p false masks x).map tclip))

/-- The configuration checks of SSTSequenceEncoder constructor, model.py
lines 56-66, in source order: num_proposals is rejected when it is below 0
(the guard is num_proposals < 0.0), then dropout is rejected outside [0,1]. -/
def initParamChecks (num_proposals : Int) (dropout : ℚ) : Except String Unit :=
  if num_proposals < 0 then
    Except.error ("Must provide positive number of proposal anchors.")
  else if dropout < 0 ∨ dropout > 1 then
    Except.error ("Invalid value for dropout")
  else Except.ok ()

/-- Python runtime errors the training loop can raise. -/
inductive PyError where
  | nameError (missing : String)
  | zeroDivisionError
deriving DecidableEq

/-- The directories and files visible to the checkpointing step. -/
structure FS where
  dirs : List String
  files : List String
deriving DecidableEq

/-- The checkpoint block of train.py lines 222-234. When i % 10 == 0 it
computes ckpt_dir = param_dir + method_name and creates that directory if
absent; the subsequent torch.save call builds its filename from the name
save_dir, which is bound nowhere in main (ckpt_dir is never used again), so
evaluating it raises NameError before any file is written. -/
def checkpointStep (param_dir method_name : String) (i : Nat) (fs : FS) :
    FS × Option PyError :=
  if i % 10 = 0 then
    let ckpt_dir := param_dir ++ method_name
    let fs1 := if fs.dirs.contains ckpt_dir then fs
               else { fs with dirs := ckpt_dir :: fs.dirs }
    (fs1, some (PyError.nameError "save_dir"))
  else (fs, none)

/-- The state the training loop threads through an epoch: model parameters,
optimizer internal state, and the recurrent hidden state. -/
structure LoopState (P O H : Type) where
  params : P
  optState : O
  hidden : H

/-- Body of the evaluation loop of one epoch, train.py lines 206-216: reset
the hidden state, run the forward pass and the criterion, and accumulate
val_loss and val_batches. No backward call and no optimizer step occur here.
The forward pass itself is the pytorch model's, which is not under src/;
modelled from the spec as a pure function of parameters, hidden state and
input. -/
def evalStep {P O H A L Out : Type} (forward : P → H → List A → Out)
    (criterion : List L → Out → ℚ) (initHidden : H)
    (acc : LoopState P O H × ℚ × Nat) (batch : List A × List L) :
    LoopState P O H × ℚ × Nat :=
  let st1 : LoopState P O H := { acc.1 with hidden := initHidden }
  let loss := criterion batch.2 (forward st1.params st1.hidden batch.1)
  (st1, acc.2.1 + loss, acc.2.2 + 1)

/-- The evaluation pass folds evalStep over the unshuffled minibatches,
starting from the incoming state with zero accumulated loss and batches. -/
def evalPass {P O H A L Out : Type} [Inhabited A] [Inhabited L]
    (forward : P → H → List A → Out) (criterion : List L → Out → ℚ)
    (initHidden : H) (st0 : LoopState P O H) (X : List A) (y : List L)
    (batchsize : Nat) : LoopState P O H × ℚ × Nat :=
  (iterate_minibatches none X y batchsize).foldl
    (evalStep forward criterion initHidden) (st0, 0, 0)

/-- Body of the training loop of one epoch, train.py lines 188-201: reset
the hidden state, run the forward pass and the criterion, then apply one
optimizer step (backward plus optimizer.step, abstracted as optStep acting
on the state, the batch and the loss), accumulating train_loss and
train_batches. -/
def trainStep {P O H A L Out : Type} (forward : P → H → List A → Out)
    (criterion : List L → Out → ℚ)
    (optStep : LoopState P O H → List A × List L → ℚ → P × O)
    (initHidden : H) (acc : LoopState P O H × ℚ × Nat)
    (batch : List A × List L) : LoopState P O H × ℚ × Nat :=
  let st1 : LoopState P O H := { acc.1 with hidden := initHidden }
  let loss := criterion batch.2 (forward st1.params st1.hidden batch.1)
  let po := optStep st1 batch loss
  ({ params := po.1, optState := po.2, hidden := st1.hidden },
   acc.2.1 + loss, acc.2.2 + 1)

/-- The training pass folds trainStep over the shuffled minibatches. -/
def trainPass {P O H A L Out : Type} [Inhabited A] [Inhabited L]
    (forward : P → H → List A → Out) (criterion : List L → Out → ℚ)
    (optStep : LoopState P O H → List A × List L → ℚ → P × O)
    (initHidden : H) (perm : List Nat) (st0 : LoopState P O H)
    (X : List A) (y : List L) (batchsize : Nat) : LoopState P O H × ℚ × Nat :=
  (iterate_minibatches (some perm) X y batchsize).foldl
    (trainStep forward criterion optStep initHidden) (st0, 0, 0)

/-- The per-epoch loss reporting of train.py lines 218-220: both reported
values divide the accumulated loss by the batch count, raising
ZeroDivisionError when a count is zero. -/
def reportEpochLosses (train_loss : ℚ) (train_batches : Nat) (val_loss : ℚ)
    (val_batches : Nat) : Except PyError (ℚ × ℚ) :=
  if train_batches = 0 then Except.error PyError.zeroDivisionError
  else if val_batches = 0 then Except.error PyError.zeroDivisionError
  else Except.ok (train_loss / (train_batches : ℚ), val_loss / (val_batches : ℚ))

/-- One epoch of the training loop body, train.py lines 184-234, in source
order: training pass, evaluation pass, loss reporting (lines 218-220),
then the checkpoint block (lines 222-234). An error at any stage aborts the
epoch before the later stages run. -/
def runEpoch {P O H A L Out : Type} [Inhabited A] [Inhabited L] (i : Nat)
    (param_dir method_name : String) (perm : List Nat)
    (forward : P → H → List A → Out) (criterion : List L → Out → ℚ)
    (optStep : LoopState P O H → List A × List L → ℚ → P × O)
    (initHidden : H) (st0 : LoopState P O H) (X : List A) (y : List L)
    (batchsize : Nat) (fs : FS) : Except PyError (LoopState P O H × FS) :=
  let t := trainPass forward criterion optStep initHidden perm st0 X y batchsize
  let v := evalPass forward criterion initHidden t.1 X y batchsize
  match reportEpochLosses t.2.1 t.2.2 v.2.1 v.2.2 with
  | Except.error e => Except.error e
  | Except.ok _ =>
      let c := checkpointStep param_dir method_name i fs
      match c.2 with
      | some e => Except.error e
      | none => Except.ok (v.1, c.1)

/-- The mode of the Lasagne SSTSequenceEncoder. -/
inductive Mode where
  | train
  | test
deriving DecidableEq

/-- What forward_eval returns: the train-mode branch returns a scalar loss,
the test-mode branch the array of predicted scores. -/
inductive EvalOutput (Out : Type) where
  | scalar (v : ℚ)
  | scores (m : Out)
deriving DecidableEq

/-- forward_eval, model.py lines 152-188, with the compiled theano functions
passed explicitly as state transformers: train_fn carries the nesterov
momentum updates, so it returns the loss together with the updated
parameters; the two test functions apply no updates. In train mode the code
calls train_fn (applying one update), then overwrites output by calling
test_fn on the updated parameters and returns that scalar test loss; in test
mode it calls the prediction function and leaves the parameters unchanged.
The guards model lines 176-181 on the ndarray's shape. -/
def forward_eval {P I L Out : Type} (compiled : Bool) (input_size : Nat)
    (train_fn : P → I → L → ℚ × P) (test_fn_train : P → I → L → ℚ)
    (test_fn_test : P → I → Out) (mode : Mode) (params : P)
    (shape : List Nat) (input_data : I) (input_labels : L) :
    Except String (EvalOutput Out × P) :=
  if compiled = false then Except.error ("Model must be compiled.")
  else if shape.length ≠ 3 then
    Except.error ("Input ndarray must be three dimensional.")
  else if shape.getD 2 0 ≠ input_size then
    Except.error ("Mismatch between input visual encoding size and network input size.")
  else
    match mode with
    | Mode.train =>
        let params1 := (train_fn params input_data input_labels).2
        Except.ok (EvalOutput.scalar (test_fn_train params1 input_data input_labels),
                   params1)
    | Mode.test =>
        Except.ok (EvalOutput.scores (test_fn_test params input_data), params)

/-- A binarized (T × K) label matrix with T = 128, K = 1 in which exactly 16
timesteps are positive for the single anchor. -/
def sampleSixteenPos : List (List ℚ) :=
  List.replicate 16 [1] ++ List.replicate 112 [0]

/-! Helper lemmas about the minibatching primitives. -/

theorem listSlice_length (l : List α) (a b : Nat) :
    (listSlice l a b).length = min (b - a) (l.length - a) := by
  simp [listSlice]

theorem pyRangeCountEq (n B : Nat) (hB : 0 < B) :
    ((max ((n : Int) - B + 1) 0 + B - 1) / B).toNat = n / B := by
  rcases le_or_lt B n with h | h
  · have hmax : max ((n : Int) - B + 1) 0 = (n : Int) - B + 1 :=
      max_eq_left (by omega)
    rw [hmax]
    have h2 : (n : Int) - B + 1 + B - 1 = (n : Int) := by ring
    rw [h2, ← Int.natCast_div, Int.toNat_natCast]
  · have hmax : max ((n : Int) - B + 1) 0 = 0 := max_eq_right (by omega)
    rw [hmax]
    have h2 : (0 : Int) + B - 1 = (B : Int) - 1 := by ring
    rw [h2, Int.ediv_eq_zero_of_lt (by omega) (by omega)]
    simp [Nat.div_eq_of_lt h]

theorem pyRange0_length (stop step : Int) :
    (pyRange0 stop step).length = ((max stop 0 + step - 1) / step).toNat := by
  simp [pyRange0]

theorem iterate_minibatches_length [Inhabited α] [Inhabited β]
    (indices : Option (List Nat)) (inputs : List α) (targets : List β)
    (B : Nat) (hB : 0 < B) :
    (iterate_minibatches indices inputs targets B).length = inputs.length / B := by
  unfold iterate_minibatches
  rw [List.length_map, pyRange0_length]
  exact pyRangeCountEq inputs.length B hB

theorem mem_pyRange0 {stop step : Int} {s : Int} (hs : s ∈ pyRange0 stop step) :
    ∃ k : Nat, k < ((max stop 0 + step - 1) / step).toNat ∧ s = (k : Int) * step := by
  unfold pyRange0 at hs
  rw [List.mem_map] at hs
  obtain ⟨k, hk, hks⟩ := hs
  exact ⟨k, List.mem_range.mp hk, hks.symm⟩

theorem iterate_minibatches_batch_sizes [Inhabited α] [Inhabited β]
    (indices : Option (List Nat)) (inputs : List α) (targets : List β) (B : Nat)
    (hB : 0 < B) (hlen : targets.length = inputs.length)
    (hidx : ∀ idx, indices = some idx → idx.length = inputs.length) :
    ∀ b ∈ iterate_minibatches indices inputs targets B,
      b.1.length = B ∧ b.2.length = B := by
  intro b hb
  unfold iterate_minibatches at hb
  rw [List.mem_map] at hb
  obtain ⟨s, hs, rfl⟩ := hb
  obtain ⟨k, hk, rfl⟩ := mem_pyRange0 hs
  rw [pyRangeCountEq inputs.length B hB] at hk
  have hsN : ((k : Int) * (B : Int)).toNat = k * B := by
    rw [show (k : Int) * (B : Int) = ((k * B : Nat) : Int) by push_cast; ring,
      Int.toNat_natCast]
  have hkB : k * B + B ≤ inputs.length := by
    have h3 : k * B + B ≤ inputs.length / B * B := by
      calc k * B + B = (k + 1) * B := by ring
        _ ≤ inputs.length / B * B := Nat.mul_le_mul_right B hk
    exact h3.trans (Nat.div_mul_le_self _ _)
  cases indices with
  | none =>
      simp only [listSlice_length, hsN]
      omega
  | some idx =>
      have hidxlen : idx.length = inputs.length := hidx idx rfl
      simp only [List.length_map, listSlice_length, hsN, hidxlen]
      omega

/-- Evaluation of countEq on the concrete 128-timestep sample: 16 positive
entries for the single anchor. -/
theorem countEq_one_sampleSixteenPos : countEq 1 sampleSixteenPos 0 = 16 := by
  unfold countEq sampleSixteenPos
  rw [List.map_append, List.map_replicate, List.map_replicate, List.count_append,
    List.count_replicate, List.count_replicate]
  norm_num

/-- Evaluation of countEq on the concrete 128-timestep sample: 112 negative
entries for the single anchor. -/
theorem countEq_zero_sampleSixteenPos : countEq 0 sampleSixteenPos 0 = 112 := by
  unfold countEq sampleSixteenPos
  rw [List.map_append, List.map_replicate, List.map_replicate, List.count_append,
    List.count_replicate, List.count_replicate]
  norm_num

/-- C1: the claim states the compiled training loss is the mean of
-(w1*y*log(pred) + w0*(1-y)*log(1 - pred)). The code instead multiplies the
second logarithm by (1 - w0*(1-y)). At w0 = w1 = 1, y = 0, pred = 1/2 the
code's loss is 0 for every choice of the logarithm, while the claimed
formula evaluates to minus log(1/2), which is nonzero for any log-like
function (witnessed here by the concrete stand-in logStub). -/
theorem c1_train_loss_term2_bug :
    (∀ lg : ℚ → ℚ, trainLossCompiledOn lg 1 1 [0] [1/2] = 0) ∧
      trainLossSpecOn logStub 1 1 [0] [1/2] = 1/2 := by
  constructor
  · intro lg
    norm_num [trainLossCompiledOn, wceMeanCode, wceElemCode, tclip]
  · norm_num [trainLossSpecOn, wceElemSpec, logStub]

/-- C2 counterexample: on a binarized training set with one sample having
exactly 16 of 128 timesteps positive for the single anchor, the code
computes w1 = 7/8, not the claimed 1/8 (and w0 = 1/8): the claim has the
two weights swapped relative to train.py lines 121-122. -/
theorem c2_w1_counterexample :
    w1_code [sampleSixteenPos] 128 0 = 7/8 ∧ w1_code [sampleSixteenPos] 128 0 ≠ 1/8 ∧
      w0_code [sampleSixteenPos] 128 0 = 1/8 := by
  refine ⟨?_, ?_, ?_⟩ <;>
    norm_num [w1_code, w0_code, countEq_zero_sampleSixteenPos, countEq_one_sampleSixteenPos]

/-- C2 amended: w0 is the mean over samples of the fraction of positive
labels per sequence and w1 the mean fraction of negative labels; on a
training set where every sample has exactly 16 of 128 timesteps positive
(and 112 negative) for anchor k, w0 = 1/8 and w1 = 7/8 for that anchor. -/
theorem c2_class_weights_amended (ytrain : List (List (List ℚ))) (k : Nat)
    (hne : ytrain ≠ [])
    (h : ∀ s ∈ ytrain, countEq 1 s k = 16 ∧ countEq 0 s k = 112) :
    w0_code ytrain 128 k = 1/8 ∧ w1_code ytrain 128 k = 7/8 := by
  have hn : (ytrain.length : ℚ) ≠ 0 := by
    simpa using fun hl => hne (List.length_eq_zero.mp hl)
  constructor
  · unfold w0_code
    have hsum : (ytrain.map (fun s => (countEq 1 s k : ℚ) / 128)).sum =
        (ytrain.map (fun s => (countEq 1 s k : ℚ) / 128)).length • ((1 : ℚ)/8) := by
      refine List.sum_eq_card_nsmul _ _ ?_
      intro x hx
      rw [List.mem_map] at hx
      obtain ⟨s, hsin, rfl⟩ := hx
      rw [(h s hsin).1]
      norm_num
    rw [hsum, List.length_map, nsmul_eq_mul]
    field_simp
    ring
  · unfold w1_code
    have hsum : (ytrain.map (fun s => (countEq 0 s k : ℚ) / 128)).sum =
        (ytrain.map (fun s => (countEq 0 s k : ℚ) / 128)).length • ((7 : ℚ)/8) := by
      refine List.sum_eq_card_nsmul _ _ ?_
      intro x hx
      rw [List.mem_map] at hx
      obtain ⟨s, hsin, rfl⟩ := hx
      rw [(h s hsin).2]
      norm_num
    rw [hsum, List.length_map, nsmul_eq_mul]
    field_simp
    ring

theorem c2_class_weights_amended_witness :
    w0_code [sampleSixteenPos] 128 0 = 1/8 ∧ w1_code [sampleSixteenPos] 128 0 = 7/8 :=
  c2_class_weights_amended [sampleSixteenPos] 0 (by simp)
    (by
      intro s hs
      rw [List.mem_singleton] at hs
      subst hs
      exact ⟨countEq_one_sampleSixteenPos, countEq_zero_sampleSixteenPos⟩)

set_option maxRecDepth 4000 in
/-- C3: the claim states that at every epoch index divisible by 10 a full
checkpoint is written under param_dir/method_name. In the code the directory
is created but the save path is built from the unbound name save_dir, so the
very first checkpoint attempt (epoch 0) raises NameError and no file is
written. -/
theorem c3_checkpoint_save_dir_namerror :
    checkpointStep "pd/" "m" 0 ⟨[], []⟩ =
      (⟨["pd/m"], []⟩, some (PyError.nameError "save_dir")) := by
  decide

/-- C4: the claim states the compiled evaluation loss comes from the
deterministic forward pass (dropout disabled). The code builds the test loss
from train_prediction, the dropout-enabled graph, so with dropout p = 1/2
two different dropout draws give two different evaluation losses on the same
input, parameters and targets (identity layers, input [1], target [1],
w0 = 1, w1 = 2). -/
theorem c4_test_loss_depends_on_dropout_mask :
    testLossCompiled logStub (fun _ h => h) id 1 (1/2) 1 2 (fun _ => [1]) [1] [1] ≠
      testLossCompiled logStub (fun _ h => h) id 1 (1/2) 1 2 (fun _ => [0]) [1] [1] := by
  norm_num [testLossCompiled, buildNetworkOutput, stackLayers, dropoutLayer, tclip,
    wceMeanCode, wceElemCode, logStub, max_def, min_def]

/-- C5: the claim (and the constructor's own error message) says a
non-positive num_proposals is rejected at construction, but the guard at
model.py line 57 is num_proposals < 0.0, so 0 is accepted while -1 is
rejected. -/
theorem c5_zero_num_proposals_accepted :
    initParamChecks 0 (1/2) = Except.ok () ∧
      initParamChecks (-1) (1/2) =
        Except.error ("Must provide positive number of proposal anchors.") := by
  norm_num [initParamChecks]

/-- C6: binarization maps a raw tIoU value v (tIoU values satisfy v ≤ 1) to
1 exactly when v reaches the threshold and to 0 otherwise, boundary
inclusive on the positive side; in particular threshold 1/2 sends
[3/10, 1/2, 7/10] to [0, 1, 1]. -/
theorem c6_binarization :
    (∀ tau v : ℚ, v ≤ 1 → binarizeElem tau v = if tau ≤ v then 1 else 0) ∧
      binarizeList (1/2) [3/10, 1/2, 7/10] = [0, 1, 1] := by
  constructor
  · intro tau v hv
    unfold binarizeElem
    by_cases h : tau ≤ v
    · rw [if_pos h, if_neg (not_lt.mpr (h.trans hv)), if_pos h]
    · rw [if_neg h, if_pos (not_le.mp h), if_neg h]
  · norm_num [binarizeList, binarizeElem]

theorem c6_binarization_witness :
    binarizeElem (1/2) (7/10) = if (1/2 : ℚ) ≤ 7/10 then 1 else 0 :=
  c6_binarization.1 (1/2) (7/10) (by norm_num)

/-- C7: with n = number of samples and batch size B > 0 (and the source's
assert that inputs and targets have equal length; for the shuffled case
the index permutation covers all samples), the iterator yields exactly
n / B batches, every batch holds exactly B input samples and B target
samples, and the n mod B trailing samples are dropped. -/
theorem c7_minibatch_policy [Inhabited α] [Inhabited β]
    (indices : Option (List Nat)) (inputs : List α) (targets : List β) (B : Nat)
    (hB : 0 < B) (hlen : targets.length = inputs.length)
    (hidx : ∀ idx, indices = some idx → idx.length = inputs.length) :
    (iterate_minibatches indices inputs targets B).length = inputs.length / B ∧
    (∀ b ∈ iterate_minibatches indices inputs targets B,
      b.1.length = B ∧ b.2.length = B) ∧
    inputs.length - B * (iterate_minibatches indices inputs targets B).length
      = inputs.length % B := by
  refine ⟨iterate_minibatches_length indices inputs targets B hB,
    iterate_minibatches_batch_sizes indices inputs targets B hB hlen hidx, ?_⟩
  rw [iterate_minibatches_length indices inputs targets B hB]
  have h := Nat.div_add_mod inputs.length B
  omega

theorem c7_minibatch_policy_witness :
    (iterate_minibatches none (List.range 64) (List.range 64) 50).length
        = (List.range 64).length / 50 ∧
    (∀ b ∈ iterate_minibatches none (List.range 64) (List.range 64) 50,
      b.1.length = 50 ∧ b.2.length = 50) ∧
    (List.range 64).length
        - 50 * (iterate_minibatches none (List.range 64) (List.range 64) 50).length
      = (List.range 64).length % 50 :=
  c7_minibatch_policy none (List.range 64) (List.range 64) 50 (by norm_num) rfl
    (fun idx h => nomatch h)

/-- C8: the evaluation pass of an epoch applies no gradient update: the
model parameters and the optimizer state after the entire pass are the ones
it started with, for every forward function, criterion, dataset and batch
size. -/
theorem c8_eval_pass_frame {P O H A L Out : Type} [Inhabited A] [Inhabited L]
    (forward : P → H → List A → Out) (criterion : List L → Out → ℚ)
    (initHidden : H) (st0 : LoopState P O H) (X : List A) (y : List L)
    (batchsize : Nat) :
    (evalPass forward criterion initHidden st0 X y batchsize).1.params = st0.params ∧
    (evalPass forward criterion initHidden st0 X y batchsize).1.optState = st0.optState := by
  unfold evalPass
  suffices h : ∀ (l : List (List A × List L)) (acc : LoopState P O H × ℚ × Nat),
      (l.foldl (evalStep forward criterion initHidden) acc).1.params = acc.1.params ∧
      (l.foldl (evalStep forward criterion initHidden) acc).1.optState = acc.1.optState by
    exact h _ (st0, 0, 0)
  intro l
  induction l with
  | nil => intro acc; exact ⟨rfl, rfl⟩
  | cons b t ih =>
      intro acc
      rw [List.foldl_cons]
      exact ih _

/-- C9: when the dataset holds n samples with 0 < n < batch size B, both the
training and the evaluation pass of an epoch iterate over zero minibatches,
and the per-epoch loss reporting divides by the zero batch count, so the
epoch aborts with ZeroDivisionError before the checkpoint block runs. -/
theorem c9_small_dataset_zero_division {P O H A L Out : Type} [Inhabited A] [Inhabited L]
    (i : Nat) (param_dir method_name : String) (perm : List Nat)
    (forward : P → H → List A → Out) (criterion : List L → Out → ℚ)
    (optStep : LoopState P O H → List A × List L → ℚ → P × O) (initHidden : H)
    (st0 : LoopState P O H) (X : List A) (y : List L) (B : Nat) (fs : FS)
    (hn : 0 < X.length) (hB : X.length < B) :
    (trainPass forward criterion optStep initHidden perm st0 X y B).2.2 = 0 ∧
    (evalPass forward criterion initHidden st0 X y B).2.2 = 0 ∧
    runEpoch i param_dir method_name perm forward criterion optStep initHidden st0 X y B fs
      = Except.error PyError.zeroDivisionError := by
  have hBpos : 0 < B := hn.trans hB
  have hTr : iterate_minibatches (some perm) X y B = [] :=
    List.length_eq_zero.mp (by
      rw [iterate_minibatches_length (some perm) X y B hBpos]
      exact Nat.div_eq_of_lt hB)
  have hEv : iterate_minibatches (α := A) (β := L) none X y B = [] :=
    List.length_eq_zero.mp (by
      rw [iterate_minibatches_length none X y B hBpos]
      exact Nat.div_eq_of_lt hB)
  have ht : ∀ s : LoopState P O H,
      trainPass forward criterion optStep initHidden perm s X y B = (s, 0, 0) := by
    intro s
    unfold trainPass
    rw [hTr]
    rfl
  have he : ∀ s : LoopState P O H,
      evalPass forward criterion initHidden s X y B = (s, 0, 0) := by
    intro s
    unfold evalPass
    rw [hEv]
    rfl
  refine ⟨by rw [ht], by rw [he], ?_⟩
  simp only [runEpoch, ht, he, reportEpochLosses]
  rfl

theorem c9_small_dataset_zero_division_witness :
    (trainPass (fun (_ : Unit) (_ : Unit) (_ : List ℚ) => ())
        (fun (_ : List ℚ) (_ : Unit) => (0 : ℚ)) (fun _ _ _ => ((), ())) ()
        [0, 1, 2] ⟨(), (), ()⟩ [1, 2, 3] [4, 5, 6] 5).2.2 = 0 ∧
    (evalPass (fun (_ : Unit) (_ : Unit) (_ : List ℚ) => ())
        (fun (_ : List ℚ) (_ : Unit) => (0 : ℚ)) ()
        ⟨(), (), ()⟩ [1, 2, 3] [4, 5, 6] 5).2.2 = 0 ∧
    runEpoch 0 "pd" "mn" [0, 1, 2] (fun (_ : Unit) (_ : Unit) (_ : List ℚ) => ())
        (fun (_ : List ℚ) (_ : Unit) => (0 : ℚ)) (fun _ _ _ => ((), ())) ()
        ⟨(), (), ()⟩ [1, 2, 3] [4, 5, 6] 5 ⟨[], []⟩
      = Except.error PyError.zeroDivisionError :=
  c9_small_dataset_zero_division 0 "pd" "mn" [0, 1, 2]
    (fun (_ : Unit) (_ : Unit) (_ : List ℚ) => ())
    (fun (_ : List ℚ) (_ : Unit) => (0 : ℚ)) (fun _ _ _ => ((), ())) ()
    ⟨(), (), ()⟩ [1, 2, 3] [4, 5, 6] 5 ⟨[], []⟩ (by norm_num) (by norm_num)

/-- C10: for a compiled train-mode model on well-formed input (a
three-dimensional array whose last dimension matches input_size), a single
forward_eval call applies the train function's updates once — the returned
parameters are exactly those produced by train_fn — and the returned value
is the scalar test loss computed by the train-mode test function, not the
score array; in test mode the parameters are returned unchanged and the
value is the score array. -/
theorem c10_forward_eval_train_mode {P I L Out : Type} (input_size : Nat)
    (train_fn : P → I → L → ℚ × P) (test_fn_train : P → I → L → ℚ)
    (test_fn_test : P → I → Out) (params : P) (shape : List Nat)
    (input_data : I) (input_labels : L)
    (h3 : shape.length = 3) (hs : shape.getD 2 0 = input_size) :
    forward_eval true input_size train_fn test_fn_train test_fn_test Mode.train
        params shape input_data input_labels
      = Except.ok (EvalOutput.scalar
          (test_fn_train (train_fn params input_data input_labels).2 input_data input_labels),
          (train_fn params input_data input_labels).2) ∧
    forward_eval true input_size train_fn test_fn_train test_fn_test Mode.test
        params shape input_data input_labels
      = Except.ok (EvalOutput.scores (test_fn_test params input_data), params) := by
  constructor
  all_goals
    unfold forward_eval
    rw [if_neg (by simp), if_neg (not_ne_iff.mpr h3), if_neg (not_ne_iff.mpr hs)]

theorem c10_forward_eval_train_mode_witness :
    forward_eval true 4 (fun (p : ℚ) (_ : Unit) (_ : Unit) => ((5 : ℚ), p + 1))
        (fun p _ _ => p) (fun _ _ => (0 : ℚ)) Mode.train (0 : ℚ) [1, 1, 4] () ()
      = Except.ok (EvalOutput.scalar ((0 : ℚ) + 1), (0 : ℚ) + 1) ∧
    forward_eval true 4 (fun (p : ℚ) (_ : Unit) (_ : Unit) => ((5 : ℚ), p + 1))
        (fun p _ _ => p) (fun _ _ => (0 : ℚ)) Mode.test (0 : ℚ) [1, 1, 4] () ()
      = Except.ok (EvalOutput.scores 0, 0) :=
  c10_forward_eval_train_mode 4 (fun (p : ℚ) (_ : Unit) (_ : Unit) => ((5 : ℚ), p + 1))
    (fun p _ _ => p) (fun _ _ => (0 : ℚ)) (0 : ℚ) [1, 1, 4] () () rfl rfl
